import Mathlib

/-!
Verification of the virtio_vmmci guest driver (src/virtio_vmmci.c,
src/virtio_vmmci.h) against its natural-language specification.

The driver's pure decision logic is shallowly embedded: register reads,
rtc open/read, and clock-set outcomes are supplied as explicit inputs,
and each C function becomes a Lean function from those inputs to a record
of its observable effects (return code, clock mutations, lifecycle
requests, log events, acknowledgment writes, scheduling actions).
-/

namespace VirtioVmmci

/-- Nanoseconds per second, from the kernel's time64.h. -/
def NSEC_PER_SEC : Int := 1000000000

/-- Nanoseconds per microsecond, from the kernel's time64.h. -/
def NSEC_PER_USEC : Int := 1000

/-- Errno value EINVAL (invalid argument). -/
def EINVAL : Int := 22

/-- Errno value ENODEV (no such device). -/
def ENODEV : Int := 19

/-- Errno value ENOMEM (out of memory). -/
def ENOMEM : Int := 12

/-- Errno value ERANGE (result out of range). -/
def ERANGE : Int := 34

/-- Feature bit VMMCI_F_TIMESYNC = 1<<0, from src/virtio_vmmci.h. -/
def VMMCI_F_TIMESYNC : Nat := 1

/-- Feature bit VMMCI_F_ACK = 1<<1, from src/virtio_vmmci.h. -/
def VMMCI_F_ACK : Nat := 2

/-- Feature bit VMMCI_F_SYNCRTC = 1<<2, from src/virtio_vmmci.h. -/
def VMMCI_F_SYNCRTC : Nat := 4

/-- Kernel struct timespec64: seconds and nanoseconds. -/
structure Timespec64 where
  tv_sec : Int
  tv_nsec : Int
deriving DecidableEq, Repr

/-- Kernel set_normalized_timespec64: brings the nanosecond field into
[0, NSEC_PER_SEC) by repeatedly borrowing from / carrying into the seconds
field. The kernel's two while-loops compute exactly floor division and
the corresponding nonnegative remainder by NSEC_PER_SEC. -/
def set_normalized_timespec64 (sec nsec : Int) : Timespec64 :=
  { tv_sec := sec + Int.ediv nsec NSEC_PER_SEC
  , tv_nsec := Int.emod nsec NSEC_PER_SEC }

/-- Kernel timespec64_sub: componentwise subtraction followed by
normalization. -/
def timespec64_sub (lhs rhs : Timespec64) : Timespec64 :=
  set_normalized_timespec64 (lhs.tv_sec - rhs.tv_sec) (lhs.tv_nsec - rhs.tv_nsec)

/-- Kernel struct rtc_time, restricted to the fields the driver uses:
calendar time with tm_mon 0-based and tm_year counted from 1900. -/
structure RtcTime where
  tm_sec : Int
  tm_min : Int
  tm_hour : Int
  tm_mday : Int
  tm_mon : Int
  tm_year : Int
deriving DecidableEq, Repr

/-- Kernel mktime64 (kernel/time/time.c): converts a Gregorian calendar
date-time to seconds since the Unix epoch, using the shifted-month trick
that places February last. C integer division on the nonnegative
quantities involved is truncating division, Int.div here. -/
def mktime64 (year0 mon0 day hour min sec : Int) : Int :=
  let my : Int × Int :=
    if mon0 - 2 ≤ 0 then (mon0 + 10, year0 - 1) else (mon0 - 2, year0)
  let mon := my.1
  let year := my.2
  ((((Int.tdiv year 4 - Int.tdiv year 100 + Int.tdiv year 400
      + Int.tdiv (367 * mon) 12 + day)
     + year * 365 - 719499) * 24 + hour) * 60 + min) * 60 + sec

/-- Kernel rtc_tm_to_time64: un-biases struct rtc_time's fields and calls
mktime64. -/
def rtc_tm_to_time64 (tm : RtcTime) : Int :=
  mktime64 (tm.tm_year + 1900) (tm.tm_mon + 1) tm.tm_mday tm.tm_hour
    tm.tm_min tm.tm_sec

/-- Environment for sync_system_time: outcome of rtc_class_open (openOk),
of rtc_read_time (return code readRc, value readTime when readRc = 0), and
of do_settimeofday64 (return code setRc). -/
structure RtcEnv where
  openOk : Bool
  readRc : Int
  readTime : RtcTime
  setRc : Int
deriving DecidableEq, Repr

/-- Observable outcome of sync_system_time: its return code, whether the
rtc handle was opened and whether it was closed again, and the value
written to the system clock, if any. -/
structure SyncResult where
  rc : Int
  opened : Bool
  closed : Bool
  clockSet : Option Timespec64
deriving DecidableEq, Repr

/-- Embedding of sync_system_time (src/virtio_vmmci.c lines 96-141).
The local struct timespec64 is initialized with tv_nsec = NSEC_PER_SEC >> 1;
on open failure the function returns -ENODEV without touching the clock;
read and set failures goto close; the success path falls through to close.
rtc_class_close is exactly the paths reached via the close label. -/
def sync_system_time (env : RtcEnv) : SyncResult :=
  if ¬ env.openOk then
    { rc := -ENODEV, opened := false, closed := false, clockSet := none }
  else if env.readRc ≠ 0 then
    { rc := env.readRc, opened := true, closed := true, clockSet := none }
  else
    let time : Timespec64 :=
      { tv_sec := rtc_tm_to_time64 env.readTime, tv_nsec := NSEC_PER_SEC / 2 }
    if env.setRc ≠ 0 then
      { rc := env.setRc, opened := true, closed := true, clockSet := none }
    else
      { rc := 0, opened := true, closed := true, clockSet := some time }

example : rtc_tm_to_time64 ⟨0, 0, 10, 4, 2, 121⟩ = 1614852000 := by decide

example :
    (sync_system_time ⟨true, 0, ⟨0, 0, 10, 4, 2, 121⟩, 0⟩).clockSet
      = some ⟨1614852000, 500000000⟩ := by decide

example : sync_system_time ⟨false, 0, ⟨0, 0, 0, 0, 0, 0⟩, 0⟩
    = { rc := -19, opened := false, closed := false, clockSet := none } := by
  decide

/-- Command codes of enum vmmci_cmd together with the raw value of any
unknown code, as classified by the switch in vmmci_changed. -/
inductive VmmciCmd where
  | VMMCI_NONE
  | VMMCI_SHUTDOWN
  | VMMCI_REBOOT
  | VMMCI_SYNCRTC
  | VMMCI_UNKNOWN (v : Int)
deriving DecidableEq, Repr

/-- Classification performed by the switch statement in vmmci_changed:
0, 1, 2, 3 are the enum vmmci_cmd values; everything else falls to the
default arm. -/
def decode_cmd (v : Int) : VmmciCmd :=
  if v = 0 then .VMMCI_NONE
  else if v = 1 then .VMMCI_SHUTDOWN
  else if v = 2 then .VMMCI_REBOOT
  else if v = 3 then .VMMCI_SYNCRTC
  else .VMMCI_UNKNOWN v

/-- Observable outcome of one vmmci_changed invocation: whether
orderly_poweroff or orderly_reboot was requested, the outcome of
sync_system_time when it was invoked, whether the default arm logged an
invalid-command error, and the value written back to the command
register, if any. -/
structure DispatchResult where
  powerOff : Bool
  rebootReq : Bool
  rtcResult : Option SyncResult
  errorLogged : Bool
  ackWrite : Option Int
deriving DecidableEq, Repr

/-- Embedding of vmmci_changed (src/virtio_vmmci.c lines 225-262).
Inputs: the negotiated feature bits, the 32-bit value read from the
command register, and the rtc environment consumed by sync_system_time
when the command is VMMCI_SYNCRTC. After the switch, the value read is
echoed to the command register iff it is nonzero and the VMMCI_F_ACK
feature bit is set. -/
def vmmci_changed (features : Nat) (cmd : Int) (env : RtcEnv) : DispatchResult :=
  let r : DispatchResult :=
    if cmd = 0 then
      { powerOff := false, rebootReq := false, rtcResult := none
      , errorLogged := false, ackWrite := none }
    else if cmd = 1 then
      { powerOff := true, rebootReq := false, rtcResult := none
      , errorLogged := false, ackWrite := none }
    else if cmd = 2 then
      { powerOff := false, rebootReq := true, rtcResult := none
      , errorLogged := false, ackWrite := none }
    else if cmd = 3 then
      { powerOff := false, rebootReq := false
      , rtcResult := some (sync_system_time env)
      , errorLogged := false, ackWrite := none }
    else
      { powerOff := false, rebootReq := false, rtcResult := none
      , errorLogged := true, ackWrite := none }
  if cmd ≠ 0 ∧ features &&& VMMCI_F_ACK ≠ 0 then { r with ackWrite := some cmd }
  else r

/-- Modelled from the spec: the drift-correction threshold constant
MAX_DRIFT_SECONDS (default 5 seconds) that the spec's Clock Drift Monitor
policy refers to. No such constant appears anywhere in src/; it is
defined here only so the spec's claimed policy can be stated against the
code. -/
def MAX_DRIFT_SECONDS : Int := 5

/-- Scheduling delay constants by name. The driver queues work with the
macros DELAY_1s (src/virtio_vmmci.c line 201) and DELAY_20s (line 169);
their numeric definitions live in a build header that is not under src/,
so they are kept abstract here as the two distinct named constants the
source passes to queue_delayed_work. -/
inductive SchedDelay where
  | DELAY_1s
  | DELAY_20s
deriving DecidableEq, Repr

/-- Observable outcome of one clock_work_func tick: the computed drift,
the value written to the system clock if any, and whether/with what delay
the work re-queued itself. -/
structure TickResult where
  diff : Timespec64
  clockSet : Option Timespec64
  rearmed : Bool
  rearmDelay : SchedDelay
deriving DecidableEq, Repr

/-- Embedding of clock_work_func (src/virtio_vmmci.c lines 144-171).
Inputs: the s64 values read from the VMMCI_CONFIG_TIME_SEC and
VMMCI_CONFIG_TIME_USEC registers and the guest wall-clock time from
getnstimeofday64. The function builds host = (sec, usec * NSEC_PER_USEC),
computes diff = timespec64_sub host guest, logs it, and unconditionally
re-queues itself with delay DELAY_20s. It contains no clock-set call. -/
def clock_work_func (sec usec : Int) (guest : Timespec64) : TickResult :=
  let host : Timespec64 := { tv_sec := sec, tv_nsec := usec * NSEC_PER_USEC }
  let diff := timespec64_sub host guest
  { diff := diff, clockSet := none, rearmed := true
  , rearmDelay := SchedDelay.DELAY_20s }

/-- Environment for vmmci_probe: whether kzalloc succeeds and whether
create_singlethread_workqueue succeeds. -/
structure ProbeEnv where
  allocOk : Bool
  wqOk : Bool
deriving DecidableEq, Repr

/-- Observable outcome of vmmci_probe: return code, the value left in
vdev->priv (some () = the freshly allocated context, none = NULL),
whether that allocation was freed before returning, whether the
workqueue exists, and whether/with what delay the first tick was
queued. -/
structure ProbeResult where
  rc : Int
  priv : Option Unit
  privFreed : Bool
  wqCreated : Bool
  workQueued : Bool
  initialDelay : Option SchedDelay
deriving DecidableEq, Repr

/-- Embedding of vmmci_probe (src/virtio_vmmci.c lines 173-205).
vdev->priv is assigned the kzalloc result before the allocation check;
on workqueue-creation failure the function returns -ENOMEM without
freeing the context or clearing vdev->priv; on success the clock work is
queued with delay DELAY_1s. -/
def vmmci_probe (env : ProbeEnv) : ProbeResult :=
  if ¬ env.allocOk then
    { rc := -ENOMEM, priv := none, privFreed := false, wqCreated := false
    , workQueued := false, initialDelay := none }
  else if ¬ env.wqOk then
    { rc := -ENOMEM, priv := some (), privFreed := false, wqCreated := false
    , workQueued := false, initialDelay := none }
  else
    { rc := 0, priv := some (), privFreed := false, wqCreated := true
    , workQueued := true, initialDelay := some SchedDelay.DELAY_1s }

/-- Interleaving events of the Clock Drift Monitor work item against the
detach path. A tick of clock_work_func is split into its start (the
queued delayed work begins executing, which dequeues it) and its end
(the unconditional re-queue at src/virtio_vmmci.c line 169 followed by
return); cancel is the cancel_delayed_work call at line 212, which the
kernel defines as removing a queued-but-not-started work item without
waiting for a currently executing one. -/
inductive WqEvent where
  | tickStart
  | tickRequeue
  | cancel
deriving DecidableEq, Repr

/-- Workqueue state of the Monitor's single delayed work item: whether it
is queued awaiting its timer (pending), whether clock_work_func is
currently executing (running; the singlethread workqueue never runs two
instances at once), and whether cancel_delayed_work has been called. -/
structure WqState where
  pending : Bool
  running : Bool
  cancelRequested : Bool
deriving DecidableEq, Repr

/-- One interleaving step. A tick starts only when the work item is
pending and not already running, and dequeues it; a running tick ends by
re-queuing itself (line 169) unconditionally, whether or not cancellation
was requested in the meantime; cancel_delayed_work dequeues a pending
item and records the request, but does not stop or wait for a running
tick. An event returns none when it cannot occur in the given state. -/
def wqStep (s : WqState) (e : WqEvent) : Option WqState :=
  match e with
  | .tickStart =>
      if s.pending ∧ ¬ s.running then
        some { pending := false, running := true
             , cancelRequested := s.cancelRequested }
      else none
  | .tickRequeue =>
      if s.running then
        some { pending := true, running := false
             , cancelRequested := s.cancelRequested }
      else none
  | .cancel =>
      some { pending := false, running := s.running, cancelRequested := true }

/-- Runs a sequence of interleaving events from a state, failing if any
event cannot occur. -/
def wqRun (s : WqState) : List WqEvent → Option WqState
  | [] => some s
  | e :: es =>
      match wqStep s e with
      | some s2 => wqRun s2 es
      | none => none

/-- State of the Monitor right after vmmci_probe queued the first tick. -/
def wqAfterProbe : WqState :=
  { pending := true, running := false, cancelRequested := false }

example : wqRun wqAfterProbe [.tickStart, .tickRequeue, .cancel, .tickStart]
    = none := by decide

example : wqRun wqAfterProbe [.tickStart, .cancel, .tickRequeue]
    = some { pending := true, running := false, cancelRequested := true } := by
  decide

deriving instance DecidableEq for Except

/-- Largest unsigned long long value, ULLONG_MAX. -/
def ULLONG_MAX : Nat := 2 ^ 64 - 1

/-- Value of a digit character up to base 16 (0-9, a-f, A-F), none for
any other character. A character is an xdigit iff this is some value. -/
def digitVal (c : Char) : Option Nat :=
  if '0' ≤ c ∧ c ≤ '9' then some (c.toNat - Char.toNat '0')
  else if 'a' ≤ c ∧ c ≤ 'f' then some (c.toNat - Char.toNat 'a' + 10)
  else if 'A' ≤ c ∧ c ≤ 'F' then some (c.toNat - Char.toNat 'A' + 10)
  else none

/-- Kernel _parse_integer_fixup_radix: with base 0 the radix is inferred
from the text (leading "0x" plus an xdigit means 16, any other leading
"0" means 8, otherwise 10); a "0x" prefix is stripped when the base is
16. Returns the effective base and the remaining characters. -/
def parse_integer_fixup_radix (cs : List Char) (base : Nat) :
    Nat × List Char :=
  let b :=
    if base = 0 then
      match cs with
      | '0' :: c1 :: c2 :: _ =>
          if (c1 = 'x' ∨ c1 = 'X') ∧ (digitVal c2).isSome then 16 else 8
      | '0' :: _ => 8
      | _ => 10
    else base
  let rest :=
    if b = 16 then
      match cs with
      | '0' :: c1 :: tail => if c1 = 'x' ∨ c1 = 'X' then tail else cs
      | _ => cs
    else cs
  (b, rest)

/-- Kernel _parse_integer: consumes leading digits valid in the given
base, returning the accumulated value (kept exact here; the kernel flags
overflow past ULLONG_MAX, checked by the caller), the count of digits
consumed, and the unconsumed remainder. -/
def parse_integer (b : Nat) : List Char → Nat → Nat → Nat × Nat × List Char
  | [], acc, cnt => (acc, cnt, [])
  | c :: cs, acc, cnt =>
      match digitVal c with
      | some v =>
          if v < b then parse_integer b cs (acc * b + v) (cnt + 1)
          else (acc, cnt, c :: cs)
      | none => (acc, cnt, c :: cs)

/-- Kernel _kstrtoull: fix up the radix, parse digits, fail with -ERANGE
on overflow past ULLONG_MAX, with -EINVAL if no digit was consumed,
allow a single trailing newline, and fail with -EINVAL on any other
trailing character. -/
def kstrtoull_body (cs : List Char) (base : Nat) : Except Int Nat :=
  let f := parse_integer_fixup_radix cs base
  let r := parse_integer f.1 f.2 0 0
  if r.1 > ULLONG_MAX then .error (-ERANGE)
  else if r.2.1 = 0 then .error (-EINVAL)
  else
    let rest :=
      match r.2.2 with
      | '\n' :: tail => tail
      | other => other
    if rest = [] then .ok r.1 else .error (-EINVAL)

/-- Kernel kstrtoull: skips one leading plus sign, then _kstrtoull. -/
def kstrtoull (cs : List Char) (base : Nat) : Except Int Nat :=
  match cs with
  | '+' :: rest => kstrtoull_body rest base
  | _ => kstrtoull_body cs base

/-- Kernel kstrtoll: a leading minus sign negates the unsigned parse of
the rest (rejecting magnitudes above 2^63 via the (long long)-tmp > 0
check); otherwise the unsigned parse must fit below 2^63. -/
def kstrtoll (cs : List Char) (base : Nat) : Except Int Int :=
  match cs with
  | '-' :: rest =>
      match kstrtoull_body rest base with
      | .error e => .error e
      | .ok tmp =>
          if tmp > 2 ^ 63 then .error (-ERANGE) else .ok (-(tmp : Int))
  | _ =>
      match kstrtoull cs base with
      | .error e => .error e
      | .ok tmp =>
          if tmp ≥ 2 ^ 63 then .error (-ERANGE) else .ok (tmp : Int)

/-- Kernel kstrtoint: kstrtoll in the given base followed by the int
range check. -/
def kstrtoint (s : String) (base : Nat) : Except Int Int :=
  match kstrtoll s.data base with
  | .error e => .error e
  | .ok n =>
      if n < -(2 ^ 31) ∨ 2 ^ 31 ≤ n then .error (-ERANGE) else .ok n

/-- Kernel param_set_int (STANDARD_PARAM_DEF in kernel/params.c): parses
the value string with kstrtoint at base 0, i.e. with auto-detected radix,
and stores the result in the backing int on success. Returns (return
code, new stored value). -/
def param_set_int (val : String) (cur : Int) : Int × Int :=
  match kstrtoint val 0 with
  | .error e => (e, cur)
  | .ok n => (0, n)

/-- Embedding of set_debug (src/virtio_vmmci.c lines 39-47): parse the
incoming string with kstrtoint at base 10; if parsing fails or the
parsed value is negative, return -EINVAL leaving the stored level
unchanged; otherwise delegate to param_set_int, which re-parses at base 0
and stores its own result. Returns (return code, stored debug level
after the call). -/
def set_debug (val : String) (cur : Int) : Int × Int :=
  match kstrtoint val 10 with
  | .error _ => (-EINVAL, cur)
  | .ok n => if n < 0 then (-EINVAL, cur) else param_set_int val cur

example : set_debug "2" 0 = (0, 2) := by decide

example : set_debug "-1" 3 = (-22, 3) := by decide

example : set_debug "abc" 3 = (-22, 3) := by decide

example : set_debug "7\n" 3 = (0, 7) := by decide

example : set_debug "010" 3 = (0, 8) := by decide

example : set_debug "018" 3 = (-22, 3) := by decide

example : set_debug "0x1f" 3 = (-22, 3) := by decide

example : kstrtoint "0x1f" 0 = .ok 31 := by decide

/-- Claim C1 counterexample: at host time 100.0 s and guest time 90.0 s the
tick measures a drift of 10 seconds, strictly above MAX_DRIFT_SECONDS,
yet clock_work_func performs no clock correction, so correction applied
iff drift exceeds the threshold is false on this input. -/
theorem drift_ten_seconds_not_corrected :
    (clock_work_func 100 0 ⟨90, 0⟩).diff.tv_sec = 10 ∧
    MAX_DRIFT_SECONDS < |(clock_work_func 100 0 ⟨90, 0⟩).diff.tv_sec| ∧
    (clock_work_func 100 0 ⟨90, 0⟩).clockSet = none ∧
    ¬ (((clock_work_func 100 0 ⟨90, 0⟩).clockSet.isSome = true) ↔
        MAX_DRIFT_SECONDS < |(clock_work_func 100 0 ⟨90, 0⟩).diff.tv_sec|) := by
  decide

/-- Claim C1, amended: on every Clock Drift Monitor tick the driver only
computes and logs the signed drift host - guest and re-arms itself; it
never applies the host time (or any value) to the system clock, whatever
the drift magnitude. -/
theorem clock_tick_only_logs_and_rearms (sec usec : Int) (guest : Timespec64) :
    (clock_work_func sec usec guest).clockSet = none ∧
    (clock_work_func sec usec guest).rearmed = true :=
  ⟨rfl, rfl⟩

/-- Claim C4: command 0 (None) produces no action at all; command 1
(Shutdown) requests exactly an orderly power-off and no clock action;
command 2 (Reboot) requests exactly an orderly reboot and no clock
action; command 3 (SyncRTC) invokes exactly the RTC full-sync routine and
no lifecycle action. -/
theorem command_dispatch_actions (features : Nat) (env : RtcEnv) :
    vmmci_changed features 0 env =
      { powerOff := false, rebootReq := false, rtcResult := none
      , errorLogged := false, ackWrite := none } ∧
    ((vmmci_changed features 1 env).powerOff = true ∧
     (vmmci_changed features 1 env).rebootReq = false ∧
     (vmmci_changed features 1 env).rtcResult = none ∧
     (vmmci_changed features 1 env).errorLogged = false) ∧
    ((vmmci_changed features 2 env).rebootReq = true ∧
     (vmmci_changed features 2 env).powerOff = false ∧
     (vmmci_changed features 2 env).rtcResult = none ∧
     (vmmci_changed features 2 env).errorLogged = false) ∧
    ((vmmci_changed features 3 env).rtcResult = some (sync_system_time env) ∧
     (vmmci_changed features 3 env).powerOff = false ∧
     (vmmci_changed features 3 env).rebootReq = false ∧
     (vmmci_changed features 3 env).errorLogged = false) := by
  simp [vmmci_changed, apply_ite]

/-- Claim C6: if opening the rtc fails, sync_system_time returns -ENODEV
and mutates no clock; whenever the open succeeds, the handle is closed
again on every path (read failure, clock-set failure and success); on
success the system clock is set to the absolute-time equivalent of the
calendar value read. -/
theorem sync_system_time_error_paths (tm : RtcTime) (rdc stc : Int) :
    sync_system_time ⟨false, rdc, tm, stc⟩ =
      { rc := -ENODEV, opened := false, closed := false, clockSet := none } ∧
    (sync_system_time ⟨true, rdc, tm, stc⟩).opened = true ∧
    (sync_system_time ⟨true, rdc, tm, stc⟩).closed = true ∧
    sync_system_time ⟨true, 0, tm, 0⟩ =
      { rc := 0, opened := true, closed := true
      , clockSet := some ⟨rtc_tm_to_time64 tm, NSEC_PER_SEC / 2⟩ } := by
  refine ⟨rfl, ?_, ?_, rfl⟩ <;>
    · unfold sync_system_time
      split_ifs <;> simp_all

/-- Claim C9: on every successful run of sync_system_time the value
written to the system clock has seconds equal to the calendar value read
from the rtc converted by rtc_tm_to_time64, and its nanosecond part is
exactly half a second, NSEC_PER_SEC >> 1 = 500000000, independent of the
value the clock source reports. -/
theorem sync_success_sets_half_second_nsec (tm : RtcTime) :
    (sync_system_time ⟨true, 0, tm, 0⟩).clockSet =
      some { tv_sec := rtc_tm_to_time64 tm, tv_nsec := 500000000 } ∧
    NSEC_PER_SEC / 2 = 500000000 :=
  ⟨rfl, by decide⟩

/-- Claim C2: the acknowledgment write to the command register occurs
iff the Ack feature bit is set and the decoded command is not
VMMCI_NONE; when it occurs it carries exactly the command value that was
read; and since the equation holds for every rtc environment, a failing
sync_system_time during a SyncRTC command does not prevent the
acknowledgment. -/
theorem ack_iff_ack_feature_and_nonzero_cmd (features : Nat) (cmd : Int)
    (env : RtcEnv) :
    (vmmci_changed features cmd env).ackWrite =
      (if decode_cmd cmd ≠ VmmciCmd.VMMCI_NONE ∧ features &&& VMMCI_F_ACK ≠ 0
       then some cmd else none) := by
  by_cases h0 : cmd = 0 <;> by_cases h1 : cmd = 1 <;> by_cases h2 : cmd = 2 <;>
    by_cases h3 : cmd = 3 <;>
    simp_all [vmmci_changed, decode_cmd, apply_ite]

/-- Claim C3 evidence of the failing interleaving: clock_work_func
re-queues itself at the end of every tick, unconditionally; so when
cancel_delayed_work (which removes only a queued-but-not-started work
item and does not wait for a running one) is called while a tick is
executing, the tick's unconditional re-queue at line 169 succeeds after
cancellation was requested, leaving the work pending again, and a
further tick can then start - violating the claim that cancellation
strictly precedes any subsequent tick. -/
theorem tick_requeues_after_cancel_requested :
    (∀ sec usec guest, (clock_work_func sec usec guest).rearmed = true) ∧
    wqRun wqAfterProbe [.tickStart, .cancel, .tickRequeue]
      = some { pending := true, running := false, cancelRequested := true } ∧
    wqRun wqAfterProbe [.tickStart, .cancel, .tickRequeue, .tickStart]
      = some { pending := false, running := true, cancelRequested := true } := by
  exact ⟨fun _ _ _ => rfl, by decide, by decide⟩

/-- Claim C5: every command value outside 0..3 reaches the default arm,
which logs an invalid-command error and performs no lifecycle or clock
action: the dispatch outcome has the same action fields as VMMCI_NONE,
and the value decodes to the unknown-command classification. -/
theorem unknown_command_logs_error_no_action (features : Nat) (env : RtcEnv)
    (cmd : Int) (h0 : cmd ≠ 0) (h1 : cmd ≠ 1) (h2 : cmd ≠ 2) (h3 : cmd ≠ 3) :
    (vmmci_changed features cmd env).errorLogged = true ∧
    (vmmci_changed features cmd env).powerOff = false ∧
    (vmmci_changed features cmd env).rebootReq = false ∧
    (vmmci_changed features cmd env).rtcResult = none ∧
    decode_cmd cmd = VmmciCmd.VMMCI_UNKNOWN cmd := by
  simp [vmmci_changed, decode_cmd, h0, h1, h2, h3, apply_ite]

/-- Witness for claim C5: the concrete invalid command value 4. -/
theorem unknown_command_logs_error_no_action_witness :
    (vmmci_changed 7 4 ⟨true, 0, ⟨0, 0, 0, 0, 0, 0⟩, 0⟩).errorLogged = true ∧
    (vmmci_changed 7 4 ⟨true, 0, ⟨0, 0, 0, 0, 0, 0⟩, 0⟩).powerOff = false ∧
    (vmmci_changed 7 4 ⟨true, 0, ⟨0, 0, 0, 0, 0, 0⟩, 0⟩).rebootReq = false ∧
    (vmmci_changed 7 4 ⟨true, 0, ⟨0, 0, 0, 0, 0, 0⟩, 0⟩).rtcResult = none ∧
    decode_cmd 4 = VmmciCmd.VMMCI_UNKNOWN 4 :=
  unknown_command_logs_error_no_action 7 ⟨true, 0, ⟨0, 0, 0, 0, 0, 0⟩, 0⟩ 4
    (by decide) (by decide) (by decide) (by decide)

/-- Claim C8 counterexample: "018" is a non-negative numeric input (it
parses at base 10 to 18), yet set_debug rejects it with -EINVAL and
leaves the level unchanged, because param_set_int re-parses at base 0
where the leading zero selects octal and the trailing 8 is invalid;
likewise "010" is accepted but stores octal 8, not 10. -/
theorem set_debug_leading_zero_divergence :
    kstrtoint "018" 10 = .ok 18 ∧ (0 : Int) ≤ 18 ∧
    set_debug "018" 3 = (-EINVAL, 3) ∧
    set_debug "018" 3 ≠ (0, 18) ∧
    kstrtoint "010" 10 = .ok 10 ∧
    set_debug "010" 3 = (0, 8) ∧
    set_debug "010" 3 ≠ (0, 10) := by
  decide

/-- Claim C8, amended: set_debug rejects any string that fails the
base-10 parse or parses to a negative value, returning -EINVAL with the
stored level unchanged; a string parsing to a non-negative value is
handed to param_set_int, which re-parses it with auto-detected radix
(base 0) and stores that result - so decimal inputs without a leading
zero are stored as given, while a leading zero switches the store to
octal: "010" stores 8 and "018" is rejected with the level unchanged. -/
theorem set_debug_validates_input (s : String) (d : Int) :
    (set_debug s d =
      match kstrtoint s 10 with
      | .error _ => (-EINVAL, d)
      | .ok n =>
          if n < 0 then (-EINVAL, d)
          else
            match kstrtoint s 0 with
            | .error e => (e, d)
            | .ok m => ((0 : Int), m)) ∧
    set_debug "2" d = (0, 2) ∧
    set_debug "-1" d = (-EINVAL, d) ∧
    set_debug "abc" d = (-EINVAL, d) ∧
    set_debug "010" d = (0, 8) ∧
    set_debug "018" d = (-EINVAL, d) := by
  refine ⟨?_, rfl, rfl, rfl, rfl, rfl⟩
  cases h : kstrtoint s 10 with
  | error e => simp [set_debug, h]
  | ok n =>
    by_cases hn : n < 0
    · simp [set_debug, h, hn]
    · cases h0 : kstrtoint s 0 with
      | error e => simp [set_debug, param_set_int, h, hn, h0]
      | ok m => simp [set_debug, param_set_int, h, hn, h0]

/-- Claim C10: when workqueue creation fails during attach, vmmci_probe
returns -ENOMEM while the device context allocated earlier in the same
attach is still assigned to vdev->priv and has not been freed. -/
theorem probe_wq_failure_leaks_context :
    vmmci_probe ⟨true, false⟩ =
      { rc := -ENOMEM, priv := some (), privFreed := false
      , wqCreated := false, workQueued := false, initialDelay := none } := by
  decide

end VirtioVmmci
